import Mathlib

/-!
Shallow embedding of the pixel-streaming-client lifecycle logic:
the capability detector (src/browser/compatibility.ts), the session
resource client (src/session.ts), the GFN provider driver
(src/gfn/index.ts) and the stream orchestrator (src/client.ts).

JavaScript strings are modelled as Lean String, JS numbers that hold
integral values as Int or Nat, absent values as Option.  The external
collaborators (the fetch transport, the GFN engine, the DOM and the
user-agent parser) enter the model as explicit inputs: each network
response, engine signal or parsed user agent is an argument of the
function that consumes it.
-/

/-- JS String.prototype.toLowerCase restricted to the character-wise case
map (all strings in the compatibility tables are ASCII). -/
def lowerStr (s : String) : String := String.mk (s.data.map Char.toLower)

/-- JS Number.prototype.toString(16).toUpperCase() for a non-negative
integral number, as used by StreamingClient.cleanup. -/
def natToHexUpper (n : Nat) : String :=
  String.mk ((Nat.toDigits 16 n).map Char.toUpper)

/-- Association-list lookup keyed by strings; models both JS plain-object
indexing (compatibility tables, the compat cache) and Headers lookup. -/
def tableLookup {α : Type} : List (String × α) → String → Option α
  | [], _ => none
  | (k, v) :: rest, key => if k = key then some v else tableLookup rest key

/-! ## Capability detector (src/browser/compatibility.ts) -/

/-- One entry of a provider compatibility table. -/
structure Compatibility where
  minVer : Int
  devices : Option (List String) := none
deriving DecidableEq, Repr

/-- OS name constants exported by the UA module (src/browser/ua.ts). -/
def OSiOS : String := "iOS"

/-- Browser name constant exported by the UA module. -/
def BrowserSafari : String := "Safari"

/-- Browser name constant exported by the UA module. -/
def BrowserSafariMobile : String := "Mobile Safari"

/-- The GeforceNowBrowsers table of src/browser/compatibility.ts. -/
def GeforceNowBrowsers : List (String × Compatibility) :=
  [("chrome", { minVer := 77 }),
   ("chrome headless", { minVer := 77 }),
   ("edge", { minVer := 91 }),
   ("safari", { minVer := 16, devices := some ["ipad"] }),
   ("mobile safari", { minVer := 16 })]

/-- The UbitusBrowsers table of src/browser/compatibility.ts. -/
def UbitusBrowsers : List (String × Compatibility) :=
  [("chrome", { minVer := 73 }),
   ("chrome headless", { minVer := 73 }),
   ("firefox", { minVer := 66 }),
   ("safari", { minVer := 16, devices := some ["ipad"] }),
   ("mobile safari", { minVer := 16 })]

/-- The device restriction of a table entry: `supportedDevices ?
supportedDevices.has(lowercaseDevice) : true`. -/
def deviceAllowed (c : Compatibility) (device : String) : Bool :=
  match c.devices with
  | some ds => ds.contains (lowerStr device)
  | none => true

/-- isSupported of src/browser/compatibility.ts.  The version argument is
the parsed numeric browser version. -/
def isSupported (supportedBrowsers : List (String × Compatibility))
    (name : String) (version : Int) (device : String) (os : String) : Bool :=
  if os = OSiOS ∧ name ≠ BrowserSafari ∧ name ≠ BrowserSafariMobile then
    false
  else
    match tableLookup supportedBrowsers (lowerStr name) with
    | some browser => decide (browser.minVer ≤ version) && deviceAllowed browser device
    | none => false

/-- The user-agent identity as consumed by getOrComputeCompat: the raw
identity string plus the parsed fields, each with the `?? ""` default
already applied and the version already run through Number.parseInt
(the parser itself lives in the external ua-parser collaborator). -/
structure UserAgent where
  raw : String
  browserName : String
  browserVersion : Int
  osName : String
  deviceModel : String
  deviceType : String
deriving DecidableEq, Repr

/-- The capability descriptor computed by getOrComputeCompat. -/
structure BrowserSupport where
  browserName : String
  browserVersion : Int
  osName : String
  deviceModel : String
  deviceType : String
  ubitusSupported : Bool
  geforceSupported : Bool
deriving DecidableEq, Repr

/-- The pure computation performed by getOrComputeCompat on a cache miss. -/
def computeCompat (ua : UserAgent) : BrowserSupport :=
  { browserName := ua.browserName
    browserVersion := ua.browserVersion
    osName := ua.osName
    deviceModel := ua.deviceModel
    deviceType := ua.deviceType
    ubitusSupported :=
      isSupported UbitusBrowsers ua.browserName ua.browserVersion
        ua.deviceModel ua.osName
    geforceSupported :=
      isSupported GeforceNowBrowsers ua.browserName ua.browserVersion
        ua.deviceModel ua.osName }

/-- The module-level compatCache, keyed by the raw user-agent string. -/
abbrev CompatCache := List (String × BrowserSupport)

/-- getOrComputeCompat of src/browser/compatibility.ts with the cache
passed explicitly; returns the descriptor and the updated cache. -/
def getOrComputeCompat (cache : CompatCache) (ua : UserAgent) :
    BrowserSupport × CompatCache :=
  match tableLookup cache ua.raw with
  | some c => (c, cache)
  | none => (computeCompat ua, (ua.raw, computeCompat ua) :: cache)

/-- getStreamCompat of src/browser/compatibility.ts. -/
def getStreamCompat (skipBrowserSupportChecks : Bool) (cache : CompatCache)
    (ua : UserAgent) : BrowserSupport × CompatCache :=
  let r := getOrComputeCompat cache ua
  if skipBrowserSupportChecks then
    ({ r.1 with geforceSupported := true, ubitusSupported := true }, r.2)
  else
    (r.1, r.2)

/-! ## Session resource client (src/session.ts) -/

/-- SessionState.Queued. -/
def StQueued : String := "QUEUED"
/-- SessionState.Admitted. -/
def StAdmitted : String := "ADMITTED"
/-- SessionState.Ready. -/
def StReady : String := "READY"
/-- SessionState.Pending. -/
def StPending : String := "PENDING"
/-- SessionState.Active. -/
def StActive : String := "ACTIVE"
/-- SessionState.Replaced. -/
def StReplaced : String := "REPLACED"
/-- SessionState.Expired. -/
def StExpired : String := "EXPIRED"
/-- SessionState.Failed. -/
def StFailed : String := "FAILED"
/-- SessionState.Deleted. -/
def StDeleted : String := "DELETED"

/-- A backend Session resource.  The provider config payload is not
inspected by the lifecycle logic and is carried as an uninterpreted
string. -/
structure Session where
  sessionId : String
  state : String
  providerConfig : Option String := none
deriving DecidableEq, Repr

/-- The membership test of the four terminal session states. -/
def isTerminalState (st : String) : Bool :=
  st == StReplaced || st == StExpired || st == StFailed || st == StDeleted

/-- The while-loop condition of SessionClient.pollSession:
`!session || state is Queued/Admitted/Pending/Ready`. -/
def pollLoopCond : Option Session → Bool
  | none => true
  | some s =>
      s.state == StQueued || s.state == StAdmitted ||
      s.state == StPending || s.state == StReady

/-- SESSION_POLL_INTERVAL_MILLIS of src/session.ts. -/
def SESSION_POLL_INTERVAL_MILLIS : Nat := 5000

/-- Result of running the poll loop against a finite oracle of refresh
responses (one entry per refreshSession call; none models a refresh
that failed, i.e. a non-ok response or a thrown fetch).
finished carries the returned value, the list of states passed to
onStateChange, and the total milliseconds spent suspended;
outOfRefreshes means the loop would issue yet another refresh but the
oracle is exhausted. -/
inductive PollOutcome where
  | finished (result : Option Session) (callbacks : List String)
      (waitMillis : Nat)
  | outOfRefreshes (callbacks : List String) (waitMillis : Nat)
deriving DecidableEq, Repr

/-- The result field of a completed poll outcome. -/
def outcomeResult : PollOutcome → Option (Option Session)
  | .finished r _ _ => some r
  | .outOfRefreshes _ _ => none

/-- The body of SessionClient.pollSession: while the loop condition on
the current session holds, refresh; a failed refresh returns undefined;
an Active session fires the callback and is returned; anything else is
kept, the loop suspends for the poll interval and re-checks the
condition. -/
def pollGo (session : Option Session) (callbacks : List String)
    (waited : Nat) : List (Option Session) → PollOutcome
  | [] =>
      if pollLoopCond session then .outOfRefreshes callbacks waited
      else .finished session callbacks waited
  | r :: rest =>
      if pollLoopCond session then
        match r with
        | none => .finished none callbacks waited
        | some s =>
            if s.state == StActive then
              .finished (some s) (callbacks ++ [s.state]) waited
            else
              pollGo (some s) callbacks
                (waited + SESSION_POLL_INTERVAL_MILLIS) rest
      else
        .finished session callbacks waited

/-- SessionClient.pollSession with the refresh oracle passed explicitly. -/
def pollSession (refreshes : List (Option Session)) : PollOutcome :=
  pollGo none [] 0 refreshes

/-- JS truthiness of the optional worldId string (undefined and the empty
string are falsy). -/
def optionTruthy : Option String → Bool
  | none => false
  | some s => !(s == "")

/-- Prepends a state-change callback invocation to a poll outcome; models
the onStateChange call createSession performs before delegating to
pollSession. -/
def withCallbackFirst (st : String) : PollOutcome → PollOutcome
  | .finished r cbs w => .finished r (st :: cbs) w
  | .outOfRefreshes cbs w => .outOfRefreshes (st :: cbs) w

/-- SessionClient.createSession: the create response is none for a
non-ok response or thrown fetch (logged, undefined returned); otherwise
the poll loop is entered exactly when the worldId is truthy and the
returned state is Queued or Ready, with the callback fired first. -/
def createSession (worldId : Option String) (response : Option Session)
    (refreshes : List (Option Session)) : PollOutcome :=
  match response with
  | none => .finished none [] 0
  | some session =>
      if optionTruthy worldId &&
          (session.state == StQueued || session.state == StReady) then
        withCallbackFirst session.state (pollSession refreshes)
      else
        .finished (some session) [] 0

/-! ## Provider driver (src/gfn/index.ts) -/

/-- TerminationErrorCode.ServerDisconnectedIntended (src/gfn/types.ts). -/
def ServerDisconnectedIntended : Nat := 0x00F22320
/-- TerminationErrorCode.RequestLimitExceeded (src/gfn/types.ts). -/
def RequestLimitExceeded : Nat := 0xC0F2210A
/-- TerminationErrorCode.SessionLimitExceeded (src/gfn/types.ts). -/
def SessionLimitExceeded : Nat := 0xC0F2210B

/-- GFNTerminationError: numeric code and reason from the engine plus the
JS Error message (the empty string when the constructor received no
message, matching new Error(undefined)). -/
structure GFNTerminationError where
  code : Nat
  reason : Int
  message : String := ""
deriving DecidableEq, Repr

/-- An engine-level signal delivered to the listeners registered by
GFNClient.listen. -/
inductive EngineSignal where
  | started
  | diagnostic (code : Nat) (message : String)
  | terminated (code : Option Nat) (reason : Int)
deriving DecidableEq, Repr

/-- The dispatch GFNClient.listen performs on one engine signal:
none means onTerminated is not invoked at all; some cause means
onTerminated is invoked with that optional GFNTerminationError. -/
def signalTermination : EngineSignal → Option (Option GFNTerminationError)
  | .started => none
  | .diagnostic code message =>
      if code == RequestLimitExceeded || code == SessionLimitExceeded then
        some (some { code := code, reason := -1, message := message })
      else
        none
  | .terminated code reason =>
      match code with
      | none => some none
      | some c =>
          if c == ServerDisconnectedIntended then some none
          else some (some { code := c, reason := reason })

/-- An initialized GFN client handle; the id only distinguishes
instances. -/
structure GFNClient where
  id : Nat
deriving DecidableEq, Repr

/-- The GFN client errors observable through the driver surface,
identified by their message. -/
inductive GFNClientErr where
  | notInitialized
  | alreadyInitialized
  | initFailed
  | startFailed
deriving DecidableEq, Repr

/-- initClient of src/gfn/index.ts over the module-level client slot:
an existing instance wins and the already-initialized error is returned
without replacing it; otherwise the engine initialization outcome
(some fresh handle, or none for a thrown initialization) decides
between storing the new client and returning a wrapped failure. -/
def initClient (state : Option GFNClient) (engineInit : Option GFNClient) :
    Option GFNClient × Except GFNClientErr GFNClient :=
  match state with
  | some c => (some c, .error .alreadyInitialized)
  | none =>
      match engineInit with
      | some c => (some c, .ok c)
      | none => (none, .error .initFailed)

/-- getOrInitClient of src/gfn/index.ts: hands out the existing instance
when there is one, else defers to initClient. -/
def getOrInitClient (state : Option GFNClient)
    (engineInit : Option GFNClient) :
    Option GFNClient × Except GFNClientErr GFNClient :=
  match state with
  | some c => (some c, .ok c)
  | none => initClient state engineInit

/-! ## Orchestrator (src/client.ts) -/

/-- The errors the StreamingClient surface can return or emit during a
start attempt. -/
inductive ClientError where
  | popupBlocked
  | elementNotFound
  | unsupportedProvider
  | gfnError (e : GFNClientErr)
  | streamTermination (cause : Option GFNTerminationError)
deriving DecidableEq, Repr

/-- The JS Error message of each client error. -/
def errorMessage : ClientError → String
  | .popupBlocked => "Popup or new tab was blocked by the browser"
  | .elementNotFound => "Stream container element not found in DOM"
  | .unsupportedProvider => "only GeforceNow provider is currently supported"
  | .gfnError .notInitialized => "not-initialized"
  | .gfnError .alreadyInitialized => "already-initialized"
  | .gfnError .initFailed => "GFN client initialization failed"
  | .gfnError .startFailed => "failed to start stream"
  | .streamTermination _ => "Stream terminated with error"

/-- errors.as(reason, GFNTerminationError): searches the cause chain of
the error for a GFNTerminationError; in the start flow only the
StreamTerminationError wrapper carries one. -/
def findGFNTermination : ClientError → Option GFNTerminationError
  | .streamTermination c => c
  | _ => none

/-- The deletion reason StreamingClient.cleanup computes from the
termination cause before calling deleteSession. -/
def deletionReasonFor : Option ClientError → Option String
  | none => none
  | some e =>
      let base := errorMessage e
      match findGFNTermination e with
      | none => some base
      | some g =>
          let message := if g.message == "" then base else g.message
          some ("GFN: " ++ message ++ " (reason=" ++ toString g.reason ++
            ", code=0x" ++ natToHexUpper g.code ++ ")")

/-- A streamStateUpdated emission. -/
inductive StreamEvent where
  | idle
  | loading
  | streaming
  | terminated (error : Option ClientError)
  | unknown
deriving DecidableEq, Repr

/-- The mutable state of one StreamingClient.start attempt: the
needsCleanup flag of the onTerminated closure, the streamStateUpdated
emissions, the error-event emissions, and the deleteSession calls (by
deletion reason) issued so far. -/
structure AttemptState where
  needsCleanup : Bool := true
  events : List StreamEvent := []
  errorEvents : List (Option ClientError) := []
  deletions : List (Option String) := []
deriving DecidableEq, Repr

/-- The onTerminated closure of StreamingClient.start: emits the error
event and the Terminated state event, then runs cleanup exactly when
the needsCleanup flag is still set, clearing it. -/
def onTerminatedStep (st : AttemptState) (error : Option ClientError) :
    AttemptState :=
  let st1 := { st with
    errorEvents := st.errorEvents ++ [error]
    events := st.events ++ [StreamEvent.terminated error] }
  if st1.needsCleanup then
    { st1 with
      deletions := st1.deletions ++ [deletionReasonFor error]
      needsCleanup := false }
  else
    st1

/-- The fresh attempt state after the initial Loading emission of
StreamingClient.start. -/
def startState : AttemptState :=
  { needsCleanup := true, events := [StreamEvent.loading],
    errorEvents := [], deletions := [] }

/-- The Window-target branch of StreamingClient.start composed with
StreamingClient.open: when a window handle is supplied it is navigated
and Streaming is emitted; when globalThis.open returns a tab the
close-poll is armed and Streaming is emitted; when it returns null the
PopupBlocked error goes through onTerminated and is returned. -/
def startWindow (containerProvided : Bool) (openReturnsTab : Bool) :
    AttemptState × Option ClientError :=
  if containerProvided then
    ({ startState with events := startState.events ++ [StreamEvent.streaming] },
      none)
  else if openReturnsTab then
    ({ startState with events := startState.events ++ [StreamEvent.streaming] },
      none)
  else
    (onTerminatedStep startState (some ClientError.popupBlocked),
      some ClientError.popupBlocked)

/-- One firing of the 2-second close-poll armed by StreamingClient.open
in which the tab is observed closed: the interval is cleared and a
Terminated state event with no error is emitted. -/
def windowClosePollStep (st : AttemptState) : AttemptState :=
  { st with events := st.events ++ [StreamEvent.terminated none] }

/-- How the listener wiring of the Embedded branch reacts to one engine
signal: started emits Streaming; a signal GFNClient.listen maps to an
onTerminated invocation is wrapped in a StreamTerminationError and goes
through the onTerminated closure. -/
def processSignal (st : AttemptState) (sig : EngineSignal) : AttemptState :=
  match sig with
  | .started => { st with events := st.events ++ [StreamEvent.streaming] }
  | _ =>
      match signalTermination sig with
      | none => st
      | some cause =>
          onTerminatedStep st (some (ClientError.streamTermination cause))

/-- The Embedded-target branch of StreamingClient.start: container
resolution, getOrInitClient, listener registration and the driver start
call, followed by the engine signals delivered to the registered
listeners.  A failure at any stage goes through onTerminated and is
returned; the listeners stay registered, so the signal oracle is folded
in even after a failed start. -/
def startEmbedded (elementFound : Bool) (initResult : Option GFNClientErr)
    (startResult : Option GFNClientErr) (signals : List EngineSignal) :
    AttemptState × Option ClientError :=
  if !elementFound then
    (onTerminatedStep startState (some ClientError.elementNotFound),
      some ClientError.elementNotFound)
  else
    match initResult with
    | some e =>
        (onTerminatedStep startState (some (ClientError.gfnError e)),
          some (ClientError.gfnError e))
    | none =>
        match startResult with
        | some e =>
            (signals.foldl processSignal
                (onTerminatedStep startState (some (ClientError.gfnError e))),
              some (ClientError.gfnError e))
        | none =>
            (signals.foldl processSignal startState, none)

/-- The first engine signal of a list that GFNClient.listen maps to an
onTerminated invocation, with the optional termination error it
carries. -/
def firstTermination : List EngineSignal → Option (Option GFNTerminationError)
  | [] => none
  | sig :: rest =>
      match signalTermination sig with
      | some c => some c
      | none => firstTermination rest

/-! ## Authenticated transport (SessionClient.doFetch, src/session.ts) -/

/-- HttpHeader.OrganizationId. -/
def OrganizationIdHeader : String := "x-m2-organization-id"
/-- HttpHeader.ProjectId. -/
def ProjectIdHeader : String := "x-m2-project-id"
/-- HttpHeader.WorldId. -/
def WorldIdHeader : String := "x-m2-world-id"

/-- A JS Headers object: an association list whose keys are stored
lower-cased, matching the case-insensitive Headers semantics. -/
abbrev HeaderMap := List (String × String)

/-- Headers.prototype.get / has, case-insensitive in the name. -/
def headersGet (hs : HeaderMap) (name : String) : Option String :=
  tableLookup hs (lowerStr name)

/-- Headers.prototype.set: replaces an existing entry of the
(case-insensitive) name or appends a fresh one. -/
def headersSet (hs : HeaderMap) (name value : String) : HeaderMap :=
  match hs with
  | [] => [(lowerStr name, value)]
  | (k, v) :: rest =>
      if k = lowerStr name then (k, value) :: rest
      else (k, v) :: headersSet rest name value

/-- The Token union of src/types.ts: a static bearer string or a
token-producing function; the function is modelled by the sequence of
values its successive invocations return. -/
inductive TokenSource where
  | static (value : String)
  | generator (gen : Nat → String)

/-- The SessionClient configuration doFetch consults. -/
structure SessionClientConfig where
  organizationId : Option String
  token : Option TokenSource

/-- SessionClient.doFetch restricted to its header handling: when the
request lacks an Authorization header and a token is configured, the
token (static, or the generator invoked at the current invocation
count) is attached as a bearer; when the request lacks the organization
header and an organization id is configured, it is attached.  Returns
the headers of the outgoing request and the new generator invocation
count. -/
def doFetch (cfg : SessionClientConfig) (initHeaders : HeaderMap)
    (invocations : Nat) : HeaderMap × Nat :=
  let auth :=
    if (headersGet initHeaders "Authorization").isSome then
      (initHeaders, invocations)
    else
      match cfg.token with
      | none => (initHeaders, invocations)
      | some (.static v) =>
          (headersSet initHeaders "Authorization" ("Bearer " ++ v),
            invocations)
      | some (.generator g) =>
          (headersSet initHeaders "Authorization" ("Bearer " ++ g invocations),
            invocations + 1)
  let headers1 := auth.1
  let headers2 :=
    if (headersGet headers1 OrganizationIdHeader).isSome then headers1
    else
      match cfg.organizationId with
      | none => headers1
      | some org => headersSet headers1 OrganizationIdHeader org
  (headers2, auth.2)

/-- The headers createSession passes to doFetch. -/
def createHeaders (projectId : String) (worldId : Option String) : HeaderMap :=
  [(ProjectIdHeader, projectId), (WorldIdHeader, worldId.getD ""),
   ("content-type", "application/json")]

/-- The headers refreshSession passes to doFetch. -/
def refreshHeaders (projectId worldId : String) : HeaderMap :=
  [(ProjectIdHeader, projectId), (WorldIdHeader, worldId)]

/-- The headers deleteSession passes to doFetch. -/
def deleteHeaders (projectId worldId : String) : HeaderMap :=
  [(ProjectIdHeader, projectId), (WorldIdHeader, worldId)]

/-- The bearer token value doFetch resolves at a given generator
invocation count. -/
def tokenValueAt (tok : TokenSource) (invocations : Nat) : String :=
  match tok with
  | .static v => v
  | .generator g => g invocations

/-- The number of generator invocations one doFetch call performs. -/
def tokenInvocationCost : TokenSource → Nat
  | .static _ => 0
  | .generator _ => 1

/-- A descriptor with both provider support flags forced true, as
returned under the override flag. -/
def forceSupported (b : BrowserSupport) : BrowserSupport :=
  { b with geforceSupported := true, ubitusSupported := true }

/-- A SessionClient configuration carrying an organization id and a
token. -/
def cfgWith (org : String) (tok : TokenSource) : SessionClientConfig :=
  { organizationId := some org, token := some tok }

/-! ## Sample values used by witnesses and counterexamples -/

/-- A session the backend reports as Failed. -/
def failedSession : Session := { sessionId := "sess-failed", state := StFailed }
/-- A session the backend reports as Active. -/
def activeSession : Session := { sessionId := "sess-active", state := StActive }
/-- A session the backend reports as Admitted. -/
def admittedSession : Session := { sessionId := "sess-admitted", state := StAdmitted }
/-- A session the backend reports as Ready. -/
def readySession : Session := { sessionId := "sess-ready", state := StReady }
/-- A session the backend reports as Queued. -/
def queuedSession : Session := { sessionId := "sess-queued", state := StQueued }
/-- A session the backend reports as Pending. -/
def pendingSession : Session := { sessionId := "sess-pending", state := StPending }

/-- A sample parsed user agent: Chrome 76 on Windows. -/
def uaChrome76 : UserAgent :=
  { raw := "ua-chrome-76", browserName := "Chrome", browserVersion := 76,
    osName := "Windows", deviceModel := "", deviceType := "" }

/-- A sample initialized GFN client handle. -/
def gfnClient0 : GFNClient := { id := 0 }

/-! ## Theorems -/

/-! ## Helper lemmas on the poll loop -/

/-- A session in a terminal state neither matches Active nor satisfies
the poll-loop condition. -/
lemma terminal_state_facts (s : Session) (h : isTerminalState s.state = true) :
    (s.state == StActive) = false ∧ pollLoopCond (some s) = false := by
  have h2 : ((s.state = StReplaced ∨ s.state = StExpired) ∨
      s.state = StFailed) ∨ s.state = StDeleted := by
    simpa [isTerminalState] using h
  rcases h2 with ((h2 | h2) | h2) | h2 <;>
    simp [pollLoopCond, h2, StReplaced, StExpired, StFailed, StDeleted,
      StQueued, StAdmitted, StPending, StReady, StActive]

/-- When the loop condition fails, pollGo returns the current session
without touching the oracle. -/
lemma pollGo_exit (session : Option Session) (cbs : List String) (w : Nat)
    (refreshes : List (Option Session)) (h : pollLoopCond session = false) :
    pollGo session cbs w refreshes = .finished session cbs w := by
  cases refreshes <;> simp [pollGo, h]

/-- Claim C2 (amended): within an in-progress poll loop, a failed refresh
returns undefined at once; a refresh delivering an Active session fires
the callback with Active and returns that session; a refresh delivering
a terminal-state session suspends one poll interval and then returns
that terminal session itself rather than undefined. -/
theorem pollSession_step_behaviour (session : Option Session)
    (cbs : List String) (w : Nat) (rest : List (Option Session)) (s : Session)
    (hcond : pollLoopCond session = true) :
    pollGo session cbs w (none :: rest) = .finished none cbs w ∧
    (s.state = StActive →
      pollGo session cbs w (some s :: rest) =
        .finished (some s) (cbs ++ [s.state]) w) ∧
    (isTerminalState s.state = true →
      pollGo session cbs w (some s :: rest) =
        .finished (some s) cbs (w + SESSION_POLL_INTERVAL_MILLIS)) := by
  refine ⟨by simp [pollGo, hcond], ?_, ?_⟩
  · intro hs
    simp [pollGo, hcond, hs, StActive]
  · intro hs
    obtain ⟨hne, hcond2⟩ := terminal_state_facts s hs
    simp [pollGo, hcond, hne, pollGo_exit _ _ _ _ hcond2]

/-- Witness for the amended C2 theorem at a concrete terminal refresh. -/
theorem pollSession_step_behaviour_witness :
    pollLoopCond none = true ∧ isTerminalState failedSession.state = true ∧
    pollGo none [] 0 [some failedSession] =
      .finished (some failedSession) [] SESSION_POLL_INTERVAL_MILLIS :=
  ⟨rfl, rfl, by
    simpa using
      (pollSession_step_behaviour none [] 0 [] failedSession rfl).2.2 rfl⟩

/-- Claim C2 as stated is false: a refresh returning a Failed (terminal)
session makes the poll loop return that session, not undefined. -/
theorem pollSession_terminal_counterexample :
    pollSession [some failedSession] =
      .finished (some failedSession) [] 5000 ∧
    outcomeResult (pollSession [some failedSession]) ≠ some none :=
  ⟨rfl, by decide⟩

/-- Claim C4 as stated is false on both sides: with a worldId, an
Admitted create response is returned unmodified without polling, while
a Ready create response does enter the poll loop. -/
theorem createSession_gate_counterexample :
    createSession (some "world-1") (some admittedSession) [some activeSession] =
      .finished (some admittedSession) [] 0 ∧
    createSession (some "world-1") (some readySession) [some activeSession] =
      .finished (some activeSession) [StReady, StActive] 0 :=
  ⟨rfl, rfl⟩

/-- Claim C4 (amended): createSession enters the poll loop exactly when
the worldId is supplied (truthy) and the create response state is
Queued or Ready; any other combination, and any failed create, returns
the immediate response unmodified. -/
theorem createSession_gate (worldId : Option String) (session : Session)
    (refreshes : List (Option Session)) :
    (optionTruthy worldId = true →
      (session.state = StQueued ∨ session.state = StReady) →
      createSession worldId (some session) refreshes =
        withCallbackFirst session.state (pollSession refreshes)) ∧
    ((optionTruthy worldId = false ∨
        (session.state ≠ StQueued ∧ session.state ≠ StReady)) →
      createSession worldId (some session) refreshes =
        .finished (some session) [] 0) ∧
    createSession worldId none refreshes = .finished none [] 0 := by
  refine ⟨?_, ?_, by simp [createSession]⟩
  · intro hw hs
    rcases hs with hs | hs <;> simp [createSession, hw, hs, StQueued, StReady]
  · intro h
    rcases h with h | ⟨h1, h2⟩
    · simp [createSession, h]
    · simp [createSession, h1, h2]

/-- Witness for the amended C4 theorem at concrete inputs. -/
theorem createSession_gate_witness :
    optionTruthy (some "world-1") = true ∧
    queuedSession.state = StQueued ∧
    createSession (some "world-1") (some queuedSession) [some activeSession] =
      withCallbackFirst queuedSession.state (pollSession [some activeSession]) :=
  ⟨rfl, rfl,
    (createSession_gate (some "world-1") queuedSession [some activeSession]).1
      rfl (Or.inl rfl)⟩

/-- Claim C5: a worldId-scoped create responding Queued whose refreshes
deliver Queued, Pending, Active yields exactly two state-change
callback invocations (Queued then Active), returns the Active session,
and suspends for two poll intervals in total. -/
theorem createSession_queued_trace (s0 sq sp sa : Session) (w : String)
    (hw : w ≠ "") (h0 : s0.state = StQueued) (hq : sq.state = StQueued)
    (hp : sp.state = StPending) (ha : sa.state = StActive) :
    createSession (some w) (some s0) [some sq, some sp, some sa] =
      .finished (some sa) [StQueued, StActive]
        (2 * SESSION_POLL_INTERVAL_MILLIS) ∧
    [StQueued, StActive].length = 2 := by
  refine ⟨?_, rfl⟩
  have hw2 : (w == "") = false := beq_eq_false_iff_ne.mpr hw
  simp [createSession, optionTruthy, hw2, pollSession, pollGo, pollLoopCond,
    withCallbackFirst, SESSION_POLL_INTERVAL_MILLIS, h0, hq, hp, ha,
    StQueued, StPending, StActive]

/-- Witness for the C5 theorem at concrete sessions. -/
theorem createSession_queued_trace_witness :
    ("world-1" : String) ≠ "" ∧ queuedSession.state = StQueued ∧
    pendingSession.state = StPending ∧ activeSession.state = StActive ∧
    createSession (some "world-1") (some queuedSession)
        [some queuedSession, some pendingSession, some activeSession] =
      .finished (some activeSession) [StQueued, StActive]
        (2 * SESSION_POLL_INTERVAL_MILLIS) :=
  ⟨by decide, rfl, rfl, rfl,
    (createSession_queued_trace queuedSession queuedSession pendingSession
      activeSession "world-1" (by decide) rfl rfl rfl rfl).1⟩

/-- Claim C6: outside the iOS exclusion, a browser found in a provider
compatibility table is supported iff its version reaches the entry
minimum and the entry has no device restriction or the lower-cased
device model is in the restricted set; at exactly the minimum version
it is supported and one below it is not; a browser name absent from the
table is unsupported. -/
theorem isSupported_table_spec (tbl : List (String × Compatibility))
    (name : String) (version : Int) (device os : String)
    (hios : ¬(os = OSiOS ∧ name ≠ BrowserSafari ∧ name ≠ BrowserSafariMobile)) :
    (∀ c, tableLookup tbl (lowerStr name) = some c →
      ((isSupported tbl name version device os = true) ↔
        (c.minVer ≤ version ∧ deviceAllowed c device = true)) ∧
      (deviceAllowed c device = true →
        isSupported tbl name c.minVer device os = true ∧
        isSupported tbl name (c.minVer - 1) device os = false)) ∧
    (tableLookup tbl (lowerStr name) = none →
      isSupported tbl name version device os = false) := by
  constructor
  · intro c hc
    constructor
    · unfold isSupported
      rw [if_neg hios, hc]
      simp
    · intro hdev
      unfold isSupported
      rw [if_neg hios, hc]
      simp [hdev]
  · intro hc
    unfold isSupported
    rw [if_neg hios, hc]

/-- Witness for the C6 theorem: Chrome on Windows against the GeForce
table, supported at the minimum version 77 and not at 76, and an
unknown browser is unsupported. -/
theorem isSupported_table_spec_witness :
    (¬(("Windows" : String) = OSiOS ∧ ("Chrome" : String) ≠ BrowserSafari ∧
        ("Chrome" : String) ≠ BrowserSafariMobile)) ∧
    tableLookup GeforceNowBrowsers (lowerStr "Chrome") =
      some { minVer := 77 } ∧
    isSupported GeforceNowBrowsers "Chrome" 77 "" "Windows" = true ∧
    isSupported GeforceNowBrowsers "Chrome" (77 - 1) "" "Windows" = false ∧
    isSupported GeforceNowBrowsers "Netscape" 99 "" "Windows" = false := by
  have h := isSupported_table_spec GeforceNowBrowsers "Chrome" 77 "" "Windows"
    (by decide)
  have h2 := (h.1 { minVer := 77 } (by decide)).2 (by decide)
  have h3 := isSupported_table_spec GeforceNowBrowsers "Netscape" 99 ""
    "Windows" (by decide)
  exact ⟨by decide, by decide, h2.1, h2.2, h3.2 (by decide)⟩

/-- Claim C10: with the override flag set, the capability query returns a
descriptor with both provider flags forced true while memoizing the
unforced descriptor; a subsequent call with the flag unset and the same
identity string returns the originally computed flags, and all non-flag
fields agree between the two results. -/
theorem getStreamCompat_override (ua : UserAgent) (cache : CompatCache)
    (h : tableLookup cache ua.raw = none) :
    getStreamCompat true cache ua =
      (forceSupported (computeCompat ua),
        (ua.raw, computeCompat ua) :: cache) ∧
    getStreamCompat false (getStreamCompat true cache ua).2 ua =
      (computeCompat ua, (ua.raw, computeCompat ua) :: cache) ∧
    (getStreamCompat true cache ua).1.browserName =
      (getStreamCompat false (getStreamCompat true cache ua).2 ua).1.browserName ∧
    (getStreamCompat true cache ua).1.browserVersion =
      (getStreamCompat false (getStreamCompat true cache ua).2 ua).1.browserVersion ∧
    (getStreamCompat true cache ua).1.osName =
      (getStreamCompat false (getStreamCompat true cache ua).2 ua).1.osName ∧
    (getStreamCompat true cache ua).1.deviceModel =
      (getStreamCompat false (getStreamCompat true cache ua).2 ua).1.deviceModel ∧
    (getStreamCompat true cache ua).1.deviceType =
      (getStreamCompat false (getStreamCompat true cache ua).2 ua).1.deviceType := by
  have h1 : getStreamCompat true cache ua =
      (forceSupported (computeCompat ua),
        (ua.raw, computeCompat ua) :: cache) := by
    simp [getStreamCompat, getOrComputeCompat, forceSupported, h]
  have h3 : getStreamCompat false ((ua.raw, computeCompat ua) :: cache) ua =
      (computeCompat ua, (ua.raw, computeCompat ua) :: cache) := by
    simp [getStreamCompat, getOrComputeCompat, tableLookup]
  refine ⟨h1, ?_, ?_, ?_, ?_, ?_, ?_⟩ <;> simp [h1, h3, forceSupported]

/-- Witness for the C10 theorem on an empty cache and Chrome 76 (whose
unforced GeForce flag is false, so the forcing is visible). -/
theorem getStreamCompat_override_witness :
    tableLookup ([] : CompatCache) uaChrome76.raw = none ∧
    getStreamCompat true [] uaChrome76 =
      (forceSupported (computeCompat uaChrome76),
        (uaChrome76.raw, computeCompat uaChrome76) :: []) ∧
    getStreamCompat false (getStreamCompat true [] uaChrome76).2 uaChrome76 =
      (computeCompat uaChrome76,
        (uaChrome76.raw, computeCompat uaChrome76) :: []) ∧
    (computeCompat uaChrome76).geforceSupported = false :=
  ⟨rfl, (getStreamCompat_override uaChrome76 [] rfl).1,
    (getStreamCompat_override uaChrome76 [] rfl).2.1, by decide⟩

/-- Claim C3 as stated is false: on a terminated signal carrying the
intended-disconnect code, the driver invokes onTerminated with no
error, but the consumer-observable Terminated event still carries an
error payload (the StreamTerminationError wrapper with no cause). -/
theorem terminated_intended_counterexample :
    signalTermination
      (EngineSignal.terminated (some ServerDisconnectedIntended) 0) =
        some none ∧
    (processSignal startState
        (EngineSignal.terminated (some ServerDisconnectedIntended) 0)).events =
      [StreamEvent.loading,
        StreamEvent.terminated (some (ClientError.streamTermination none))] ∧
    StreamEvent.terminated none ∉
      (processSignal startState
        (EngineSignal.terminated (some ServerDisconnectedIntended) 0)).events :=
  ⟨rfl, rfl, by decide⟩

/-- Claim C3 (amended): on a terminated signal with the code absent or
equal to the intended-disconnect code, the driver invokes onTerminated
with no termination error and the observable Terminated event carries
the StreamTerminationError wrapper with no underlying cause; on any
other code, the driver error and the cause inside the event both carry
exactly the engine-supplied code. -/
theorem terminated_signal_spec (code : Option Nat) (reason : Int)
    (st : AttemptState) (c : Nat) :
    ((code = none ∨ code = some ServerDisconnectedIntended) →
      signalTermination (EngineSignal.terminated code reason) = some none ∧
      (processSignal st (EngineSignal.terminated code reason)).events =
        st.events ++
          [StreamEvent.terminated (some (ClientError.streamTermination none))]) ∧
    (code = some c → c ≠ ServerDisconnectedIntended →
      signalTermination (EngineSignal.terminated code reason) =
        some (some { code := c, reason := reason }) ∧
      (processSignal st (EngineSignal.terminated code reason)).events =
        st.events ++
          [StreamEvent.terminated (some (ClientError.streamTermination
            (some { code := c, reason := reason })))]) := by
  constructor
  · intro h
    rcases h with h | h <;> subst h <;>
      constructor <;>
        simp [signalTermination, processSignal, onTerminatedStep] <;>
          split <;> simp
  · intro h hne
    subst h
    have hb : (c == ServerDisconnectedIntended) = false :=
      beq_eq_false_iff_ne.mpr hne
    constructor
    · simp [signalTermination, hb]
    · simp [signalTermination, processSignal, onTerminatedStep, hb]
      split <;> simp

/-- Witness for the amended C3 theorem at the intended-disconnect code
and at the distinct code 7. -/
theorem terminated_signal_spec_witness :
    ((some ServerDisconnectedIntended = (none : Option Nat)) ∨
      (some ServerDisconnectedIntended : Option Nat) =
        some ServerDisconnectedIntended) ∧
    (processSignal startState
        (EngineSignal.terminated (some ServerDisconnectedIntended) 0)).events =
      startState.events ++
        [StreamEvent.terminated (some (ClientError.streamTermination none))] ∧
    ((7 : Nat) ≠ ServerDisconnectedIntended) ∧
    signalTermination (EngineSignal.terminated (some 7) 3) =
      some (some { code := 7, reason := 3 }) :=
  ⟨Or.inr rfl,
    ((terminated_signal_spec (some ServerDisconnectedIntended) 0 startState
      7).1 (Or.inr rfl)).2,
    by decide,
    ((terminated_signal_spec (some 7) 3 startState 7).2 rfl (by decide)).1⟩

/-- Claim C7: a Window-target start with no window handle whose
window.open returns null returns the PopupBlocked error, deletes the
backend session exactly once, emits Loading then Terminated, and never
emits Streaming. -/
theorem startWindow_popup_blocked :
    startWindow false false =
      ({ needsCleanup := false,
         events := [StreamEvent.loading,
           StreamEvent.terminated (some ClientError.popupBlocked)],
         errorEvents := [some ClientError.popupBlocked],
         deletions := [some "Popup or new tab was blocked by the browser"] },
        some ClientError.popupBlocked) ∧
    (startWindow false false).1.deletions.length = 1 ∧
    StreamEvent.streaming ∉ (startWindow false false).1.events :=
  ⟨rfl, rfl, by decide⟩

/-- Claim C8 as stated is false in its stream-start half: with an
instance alive, getOrInitClient (the path a second stream-starting
caller takes) hands back the existing instance successfully instead of
the already-initialized error. -/
theorem getOrInitClient_counterexample :
    getOrInitClient (some gfnClient0) none = (some gfnClient0, .ok gfnClient0) ∧
    (getOrInitClient (some gfnClient0) none).2 ≠
      .error GFNClientErr.alreadyInitialized :=
  ⟨rfl, fun h => Except.noConfusion h⟩

/-- Claim C8 (amended): while an instance exists, a direct initClient
call returns the already-initialized error without creating or
replacing the instance, but a caller going through getOrInitClient
(as StreamingClient.start does) receives the existing instance and
proceeds. -/
theorem initClient_first_writer_wins (state : Option GFNClient)
    (c : GFNClient) (engineInit : Option GFNClient) (h : state = some c) :
    initClient state engineInit =
      (some c, .error GFNClientErr.alreadyInitialized) ∧
    getOrInitClient state engineInit = (some c, .ok c) := by
  subst h
  exact ⟨rfl, rfl⟩

/-- Witness for the amended C8 theorem at a concrete live instance. -/
theorem initClient_first_writer_wins_witness :
    (some gfnClient0 = some gfnClient0) ∧
    initClient (some gfnClient0) (some { id := 1 }) =
      (some gfnClient0, .error GFNClientErr.alreadyInitialized) ∧
    getOrInitClient (some gfnClient0) (some { id := 1 }) =
      (some gfnClient0, .ok gfnClient0) :=
  ⟨rfl, (initClient_first_writer_wins (some gfnClient0) gfnClient0
      (some { id := 1 }) rfl).1,
    (initClient_first_writer_wins (some gfnClient0) gfnClient0
      (some { id := 1 }) rfl).2⟩

/-! ## Helper lemmas on the cleanup fold -/

/-- With the needsCleanup flag cleared, onTerminatedStep issues no
further deletion and leaves the flag cleared. -/
lemma onTerminatedStep_cleared (st : AttemptState) (e : Option ClientError)
    (h : st.needsCleanup = false) :
    (onTerminatedStep st e).deletions = st.deletions ∧
    (onTerminatedStep st e).needsCleanup = false := by
  simp [onTerminatedStep, h]

/-- A signal the listener does not map to a termination leaves the
deletions and the needsCleanup flag unchanged. -/
lemma processSignal_nonterminating (st : AttemptState) (sig : EngineSignal)
    (h : signalTermination sig = none) :
    (processSignal st sig).deletions = st.deletions ∧
    (processSignal st sig).needsCleanup = st.needsCleanup := by
  cases sig with
  | started => simp [processSignal]
  | diagnostic code message => simp [processSignal, h]
  | terminated code reason => simp [processSignal, h]

/-- Once the needsCleanup flag is cleared, no further engine signal can
issue a deletion or reset the flag. -/
lemma foldl_processSignal_cleared (sigs : List EngineSignal)
    (st : AttemptState) (h : st.needsCleanup = false) :
    (sigs.foldl processSignal st).deletions = st.deletions ∧
    (sigs.foldl processSignal st).needsCleanup = false := by
  induction sigs generalizing st with
  | nil => exact ⟨rfl, h⟩
  | cons sig rest ih =>
      rcases hsig : signalTermination sig with _ | cause
      · obtain ⟨h1, h2⟩ := processSignal_nonterminating st sig hsig
        have := ih (processSignal st sig) (h2.trans h)
        simp only [List.foldl_cons]
        exact ⟨this.1.trans h1, this.2⟩
      · have hstep : processSignal st sig =
            onTerminatedStep st (some (ClientError.streamTermination cause)) := by
          cases sig with
          | started => simp [signalTermination] at hsig
          | diagnostic code message => simp [processSignal, hsig]
          | terminated code reason => simp [processSignal, hsig]
        obtain ⟨h1, h2⟩ := onTerminatedStep_cleared st
          (some (ClientError.streamTermination cause)) h
        have := ih (processSignal st sig) (by rw [hstep]; exact h2)
        simp only [List.foldl_cons, hstep]
        rw [hstep] at this
        rw [this.1, h1]
        exact ⟨rfl, this.2⟩

/-- With the needsCleanup flag set, folding the engine signals issues
exactly the deletion of the first terminating signal, or none when no
signal terminates. -/
lemma foldl_processSignal_armed (sigs : List EngineSignal)
    (st : AttemptState) (h : st.needsCleanup = true) :
    (sigs.foldl processSignal st).deletions =
      st.deletions ++
        (match firstTermination sigs with
          | none => []
          | some c =>
              [deletionReasonFor (some (ClientError.streamTermination c))]) := by
  induction sigs generalizing st with
  | nil => simp [firstTermination]
  | cons sig rest ih =>
      rcases hsig : signalTermination sig with _ | cause
      · obtain ⟨h1, h2⟩ := processSignal_nonterminating st sig hsig
        simp only [List.foldl_cons, firstTermination, hsig]
        rw [ih (processSignal st sig) (h2.trans h), h1]
      · have hstep : processSignal st sig =
            onTerminatedStep st (some (ClientError.streamTermination cause)) := by
          cases sig with
          | started => simp [signalTermination] at hsig
          | diagnostic code message => simp [processSignal, hsig]
          | terminated code reason => simp [processSignal, hsig]
        have harmed : (processSignal st sig).deletions =
            st.deletions ++
              [deletionReasonFor (some (ClientError.streamTermination cause))] ∧
            (processSignal st sig).needsCleanup = false := by
          rw [hstep]
          constructor <;> simp [onTerminatedStep, h]
        simp only [List.foldl_cons, firstTermination, hsig]
        rw [(foldl_processSignal_cleared rest (processSignal st sig)
          harmed.2).1, harmed.1]

/-- Claim C1 as stated is false for the window-closed cause: when an
opened tab is observed closed by the 2-second poll, a Terminated event
is emitted but no backend session deletion happens at all. -/
theorem windowClose_no_deletion_counterexample :
    windowClosePollStep (startWindow false true).1 =
      { needsCleanup := true,
        events := [StreamEvent.loading, StreamEvent.streaming,
          StreamEvent.terminated none],
        errorEvents := [], deletions := [] } ∧
    (windowClosePollStep (startWindow false true).1).deletions = [] :=
  ⟨rfl, rfl⟩

/-- Claim C1 (amended): every termination cause reaching the
onTerminated closure (popup blocked, container not found, driver
acquisition or start failure, listener-reported termination) issues
exactly one backend deletion per start attempt, carrying a
human-readable reason, with the first cause winning and all later
signals suppressed by the needsCleanup flag; the window-closed
detection, by contrast, only emits Terminated and deletes nothing. -/
theorem cleanup_exactly_once (st : AttemptState) (e : ClientError)
    (eg : GFNClientErr) (sigs : List EngineSignal)
    (c : Option GFNTerminationError) :
    (st.needsCleanup = true →
      (onTerminatedStep st (some e)).deletions =
        st.deletions ++ [deletionReasonFor (some e)] ∧
      (onTerminatedStep st (some e)).needsCleanup = false) ∧
    (st.needsCleanup = false →
      (onTerminatedStep st (some e)).deletions = st.deletions) ∧
    (deletionReasonFor (some e)).isSome = true ∧
    (windowClosePollStep st).deletions = st.deletions ∧
    (startWindow false false).1.deletions =
      [deletionReasonFor (some ClientError.popupBlocked)] ∧
    (startEmbedded false none none sigs).1.deletions =
      [deletionReasonFor (some ClientError.elementNotFound)] ∧
    (startEmbedded true (some eg) none sigs).1.deletions =
      [deletionReasonFor (some (ClientError.gfnError eg))] ∧
    (startEmbedded true none (some eg) sigs).1.deletions =
      [deletionReasonFor (some (ClientError.gfnError eg))] ∧
    (firstTermination sigs = some c →
      (startEmbedded true none none sigs).1.deletions =
        [deletionReasonFor (some (ClientError.streamTermination c))]) ∧
    (firstTermination sigs = none →
      (startEmbedded true none none sigs).1.deletions = []) := by
  refine ⟨?_, ?_, ?_, rfl, rfl, rfl, rfl, ?_, ?_, ?_⟩
  · intro h
    constructor <;> simp [onTerminatedStep, h]
  · intro h
    simp [onTerminatedStep, h]
  · cases e with
    | streamTermination cause =>
        cases cause <;> simp [deletionReasonFor, findGFNTermination]
    | gfnError ge =>
        cases ge <;> simp [deletionReasonFor, findGFNTermination]
    | _ => simp [deletionReasonFor, findGFNTermination]
  · have harmed : (onTerminatedStep startState
        (some (ClientError.gfnError eg))).needsCleanup = false := by
      simp [onTerminatedStep, startState]
    have h1 := foldl_processSignal_cleared sigs
      (onTerminatedStep startState (some (ClientError.gfnError eg))) harmed
    have hstart : startEmbedded true none (some eg) sigs =
        (List.foldl processSignal
          (onTerminatedStep startState (some (ClientError.gfnError eg))) sigs,
          some (ClientError.gfnError eg)) := rfl
    rw [hstart]
    rw [show (List.foldl processSignal
        (onTerminatedStep startState (some (ClientError.gfnError eg))) sigs,
        some (ClientError.gfnError eg)).1 =
      List.foldl processSignal
        (onTerminatedStep startState (some (ClientError.gfnError eg))) sigs
      from rfl, h1.1]
    simp [onTerminatedStep, startState]
  · intro h
    have h2 := foldl_processSignal_armed sigs startState rfl
    have hstart : startEmbedded true none none sigs =
        (List.foldl processSignal startState sigs, none) := rfl
    rw [hstart]
    rw [show (List.foldl processSignal startState sigs,
        (none : Option ClientError)).1 =
      List.foldl processSignal startState sigs from rfl, h2, h]
    simp [startState]
  · intro h
    have h2 := foldl_processSignal_armed sigs startState rfl
    have hstart : startEmbedded true none none sigs =
        (List.foldl processSignal startState sigs, none) := rfl
    rw [hstart]
    rw [show (List.foldl processSignal startState sigs,
        (none : Option ClientError)).1 =
      List.foldl processSignal startState sigs from rfl, h2, h]
    simp [startState]

/-- Witness for the amended C1 theorem: an embedded attempt whose engine
reports an unexpected termination deletes the session exactly once with
the formatted GFN reason. -/
theorem cleanup_exactly_once_witness :
    firstTermination [EngineSignal.terminated (some 5) 7] =
      some (some { code := 5, reason := 7 }) ∧
    (startEmbedded true none none
        [EngineSignal.terminated (some 5) 7]).1.deletions =
      [deletionReasonFor (some (ClientError.streamTermination
        (some { code := 5, reason := 7 })))] ∧
    deletionReasonFor (some (ClientError.streamTermination
        (some { code := 5, reason := 7 }))) =
      some "GFN: Stream terminated with error (reason=7, code=0x5)" :=
  ⟨by decide,
    (cleanup_exactly_once startState ClientError.popupBlocked
      GFNClientErr.startFailed [EngineSignal.terminated (some 5) 7]
      (some { code := 5, reason := 7 })).2.2.2.2.2.2.2.2.1 (by decide),
    by decide⟩

/-- The Authorization header name lower-cases to "authorization". -/
lemma lowerStr_authorization : lowerStr "Authorization" = "authorization" := by
  decide

/-- The organization header name is already lower-case. -/
lemma lowerStr_orgHeader :
    lowerStr "x-m2-organization-id" = "x-m2-organization-id" := by decide

/-- Setting a header makes it retrievable under the same name. -/
lemma headersGet_set_same (hs : HeaderMap) (nm v : String) :
    headersGet (headersSet hs nm v) nm = some v := by
  induction hs with
  | nil => simp [headersSet, headersGet, tableLookup]
  | cons kv rest ih =>
      obtain ⟨k, u⟩ := kv
      by_cases hk : k = lowerStr nm
      · simp [headersSet, hk, headersGet, tableLookup]
      · simp only [headersSet, hk, if_false]
        simpa [headersGet, tableLookup, hk] using ih

/-- Setting a header leaves retrieval of a differently-named header
unchanged. -/
lemma headersGet_set_other (hs : HeaderMap) (nm v nm2 : String)
    (h : lowerStr nm ≠ lowerStr nm2) :
    headersGet (headersSet hs nm v) nm2 = headersGet hs nm2 := by
  induction hs with
  | nil => simp [headersSet, headersGet, tableLookup, h]
  | cons kv rest ih =>
      obtain ⟨k, u⟩ := kv
      by_cases hk : k = lowerStr nm
      · have hk2 : k ≠ lowerStr nm2 := by rw [hk]; exact h
        simp [headersSet, hk, headersGet, tableLookup, hk2, h]
      · simp only [headersSet, hk, if_false]
        by_cases hk2 : k = lowerStr nm2
        · simp [headersGet, tableLookup, hk2]
        · simpa [headersGet, tableLookup, hk2] using ih

/-- On a request that does not already carry them, doFetch attaches the
bearer token resolved at the current invocation count and the
organization header, and advances the invocation count by the token
cost. -/
lemma doFetch_fresh (org : String) (tok : TokenSource) (hs : HeaderMap)
    (n : Nat) (h1 : headersGet hs "Authorization" = none)
    (h2 : headersGet hs OrganizationIdHeader = none) :
    headersGet (doFetch (cfgWith org tok) hs n).1 "Authorization" =
      some ("Bearer " ++ tokenValueAt tok n) ∧
    headersGet (doFetch (cfgWith org tok) hs n).1 OrganizationIdHeader =
      some org ∧
    (doFetch (cfgWith org tok) hs n).2 = n + tokenInvocationCost tok := by
  have hne : lowerStr "Authorization" ≠ lowerStr OrganizationIdHeader := by
    rw [lowerStr_authorization]
    rw [show lowerStr OrganizationIdHeader = OrganizationIdHeader from
      lowerStr_orgHeader]
    decide
  cases tok with
  | static v =>
      have hauth : headersGet (headersSet hs "Authorization"
          ("Bearer " ++ v)) OrganizationIdHeader = none := by
        rw [headersGet_set_other hs "Authorization" _ OrganizationIdHeader hne]
        exact h2
      refine ⟨?_, ?_, ?_⟩ <;>
        simp [doFetch, cfgWith, h1, hauth, tokenValueAt, tokenInvocationCost,
          headersGet_set_same,
          headersGet_set_other _ OrganizationIdHeader _ "Authorization"
            (fun hh => hne hh.symm)]
  | generator g =>
      have hauth : headersGet (headersSet hs "Authorization"
          ("Bearer " ++ g n)) OrganizationIdHeader = none := by
        rw [headersGet_set_other hs "Authorization" _ OrganizationIdHeader hne]
        exact h2
      refine ⟨?_, ?_, ?_⟩ <;>
        simp [doFetch, cfgWith, h1, hauth, tokenValueAt, tokenInvocationCost,
          headersGet_set_same,
          headersGet_set_other _ OrganizationIdHeader _ "Authorization"
            (fun hh => hne hh.symm)]

/-- The create-request headers carry neither an Authorization nor an
organization header. -/
lemma createHeaders_fresh (p : String) (wOpt : Option String) :
    headersGet (createHeaders p wOpt) "Authorization" = none ∧
    headersGet (createHeaders p wOpt) OrganizationIdHeader = none := by
  constructor <;>
    simp [createHeaders, headersGet, tableLookup, lowerStr_authorization,
      OrganizationIdHeader, lowerStr_orgHeader, ProjectIdHeader, WorldIdHeader]

/-- The refresh-request headers carry neither an Authorization nor an
organization header. -/
lemma refreshHeaders_fresh (p w : String) :
    headersGet (refreshHeaders p w) "Authorization" = none ∧
    headersGet (refreshHeaders p w) OrganizationIdHeader = none := by
  constructor <;>
    simp [refreshHeaders, headersGet, tableLookup, lowerStr_authorization,
      OrganizationIdHeader, lowerStr_orgHeader, ProjectIdHeader, WorldIdHeader]

/-- The delete-request headers carry neither an Authorization nor an
organization header. -/
lemma deleteHeaders_fresh (p w : String) :
    headersGet (deleteHeaders p w) "Authorization" = none ∧
    headersGet (deleteHeaders p w) OrganizationIdHeader = none := by
  constructor <;>
    simp [deleteHeaders, headersGet, tableLookup, lowerStr_authorization,
      OrganizationIdHeader, lowerStr_orgHeader, ProjectIdHeader, WorldIdHeader]

/-- Claim C9: each of the create, refresh and delete requests of a
client configured with an organization id and a token goes out with
the organization header and a bearer Authorization token that is the
configured static string or the value of the token function invoked
for this very request; a generator-token client invokes the function
once per request, so the next request resolves the next invocation and
tokens are never cached across requests. -/
theorem doFetch_attaches_auth (org p w : String) (wOpt : Option String)
    (tok : TokenSource) (n : Nat) (g : Nat → String) :
    (headersGet (doFetch (cfgWith org tok) (createHeaders p wOpt) n).1
        "Authorization" = some ("Bearer " ++ tokenValueAt tok n) ∧
      headersGet (doFetch (cfgWith org tok) (createHeaders p wOpt) n).1
        OrganizationIdHeader = some org ∧
      (doFetch (cfgWith org tok) (createHeaders p wOpt) n).2 =
        n + tokenInvocationCost tok) ∧
    (headersGet (doFetch (cfgWith org tok) (refreshHeaders p w) n).1
        "Authorization" = some ("Bearer " ++ tokenValueAt tok n) ∧
      headersGet (doFetch (cfgWith org tok) (refreshHeaders p w) n).1
        OrganizationIdHeader = some org ∧
      (doFetch (cfgWith org tok) (refreshHeaders p w) n).2 =
        n + tokenInvocationCost tok) ∧
    (headersGet (doFetch (cfgWith org tok) (deleteHeaders p w) n).1
        "Authorization" = some ("Bearer " ++ tokenValueAt tok n) ∧
      headersGet (doFetch (cfgWith org tok) (deleteHeaders p w) n).1
        OrganizationIdHeader = some org ∧
      (doFetch (cfgWith org tok) (deleteHeaders p w) n).2 =
        n + tokenInvocationCost tok) ∧
    (tok = .generator g →
      headersGet (doFetch (cfgWith org tok) (refreshHeaders p w)
          ((doFetch (cfgWith org tok) (createHeaders p wOpt) n).2)).1
        "Authorization" = some ("Bearer " ++ g (n + 1))) := by
  refine ⟨doFetch_fresh org tok (createHeaders p wOpt) n
      (createHeaders_fresh p wOpt).1 (createHeaders_fresh p wOpt).2,
    doFetch_fresh org tok (refreshHeaders p w) n
      (refreshHeaders_fresh p w).1 (refreshHeaders_fresh p w).2,
    doFetch_fresh org tok (deleteHeaders p w) n
      (deleteHeaders_fresh p w).1 (deleteHeaders_fresh p w).2, ?_⟩
  intro htok
  subst htok
  have hcount := (doFetch_fresh org (.generator g) (createHeaders p wOpt) n
    (createHeaders_fresh p wOpt).1 (createHeaders_fresh p wOpt).2).2.2
  rw [hcount]
  have := (doFetch_fresh org (.generator g) (refreshHeaders p w)
    (n + tokenInvocationCost (.generator g))
    (refreshHeaders_fresh p w).1 (refreshHeaders_fresh p w).2).1
  simpa [tokenValueAt, tokenInvocationCost] using this

/-- Witness for the C9 theorem: a generator token at invocation count 0
is attached as invocation 0 on the first request and invocation 1 on
the second. -/
theorem doFetch_attaches_auth_witness :
    TokenSource.generator (fun k => toString k) =
      TokenSource.generator (fun k => toString k) ∧
    headersGet (doFetch
        (cfgWith "org-1" (.generator (fun k => toString k)))
        (createHeaders "proj" (some "world")) 0).1 "Authorization" =
      some ("Bearer " ++
        tokenValueAt (.generator (fun k => toString k)) 0) ∧
    headersGet (doFetch
        (cfgWith "org-1" (.generator (fun k => toString k)))
        (refreshHeaders "proj" "world")
        ((doFetch (cfgWith "org-1" (.generator (fun k => toString k)))
          (createHeaders "proj" (some "world")) 0).2)).1 "Authorization" =
      some ("Bearer " ++ (fun k : Nat => toString k) (0 + 1)) :=
  ⟨rfl,
    (doFetch_attaches_auth "org-1" "proj" "world" (some "world")
      (.generator (fun k => toString k)) 0 (fun k => toString k)).1.1,
    (doFetch_attaches_auth "org-1" "proj" "world" (some "world")
      (.generator (fun k => toString k)) 0 (fun k => toString k)).2.2.2 rfl⟩
